import Mathlib

/-!
Shallow embedding of the git-x-flow worker scheduling-and-delivery pipeline.

Sources embedded:
  - src/src/worker/processor.ts   (processTwitterPost, categorizeError)
  - src/unnamed/part_002          (postTweet, uploadMedia, mapTwitterError,
                                   validateTweetContent — the worker twitter module)
  - src/src/scheduler/index.ts    (queueUpcomingPosts, recoverStuckJobs)
  - src/unnamed/part_004          (DEFAULT_JOB_OPTIONS, job data types)

Conventions: instants are integers (milliseconds since epoch, as JS Date.getTime),
JS undefined/null is Option.none, JS string-truthiness is modelled explicitly
(empty string is falsy), ORM updates are record updates touching exactly the
fields listed in the data object passed to the update call.
-/

namespace GitXFlow

/-- Model of the JavaScript s.includes(pat) substring test on strings,
    operating on the underlying character lists (structural recursion so the
    kernel can evaluate it). -/
def listIsPrefix : List Char → List Char → Bool
  | [], _ => true
  | _ :: _, [] => false
  | a :: as, b :: bs => a == b && listIsPrefix as bs

/-- Does pat occur as a contiguous sublist of s? (JS String.prototype.includes) -/
def listContainsSub (pat : List Char) : List Char → Bool
  | [] => listIsPrefix pat []
  | s@(_ :: rest) => listIsPrefix pat s || listContainsSub pat rest

/-- strContains s pat is the JS expression s.includes(pat). -/
def strContains (s pat : String) : Bool :=
  listContainsSub pat.data s.data

/-- Lifecycle status of a ScheduledPost row (prisma enum). -/
inductive PostStatus
  | PENDING
  | QUEUED
  | PROCESSING
  | POSTED
  | FAILED
deriving Repr, DecidableEq

/-- ScheduledPost ledger row (prisma model; the fields the pipeline touches). -/
structure ScheduledPost where
  id : String
  userId : String
  contentId : String
  platform : String
  content : String
  scheduledFor : Int
  priority : Int
  status : PostStatus
  jobId : Option String
  queuedAt : Option Int
  startedAt : Option Int
  completedAt : Option Int
  attempts : Nat
  lastAttemptAt : Option Int
  errorCode : Option String
  errorMessage : Option String
  platformPostId : Option String
  platformUrl : Option String
deriving Repr, DecidableEq

/-- SocialConnection credential bundle (fields read by the worker).
    refreshToken stores the OAuth 1.0a access-token secret; it may be absent
    or the empty string (both falsy in the TS check). -/
structure SocialConnection where
  accessToken : String
  refreshToken : Option String
  expiresAt : Option Int
deriving Repr, DecidableEq

/-- TwitterError carries (code, message, retryable) — the classified failure. -/
structure TwitterErrorT where
  code : String
  message : String
  retryable : Bool
deriving Repr, DecidableEq

/-- The code field of the dynamic error object the twitter client throws:
    an HTTP status number, a Node errno string, or absent. -/
inductive ErrCode
  | num (n : Int)
  | str (s : String)
  | none
deriving Repr, DecidableEq

/-- Dynamic error object reaching mapTwitterError. rateLimit models the
    truthiness of error.rateLimit; message and dataDetail model error.message
    and error.data?.detail with the empty string standing for a falsy value. -/
structure ApiError where
  code : ErrCode
  rateLimit : Bool
  message : String
  dataDetail : String
deriving Repr, DecidableEq

/-- The TS expression (error.message or error.data?.detail or the empty
    string), with JS string truthiness. -/
def effMessage (e : ApiError) : String :=
  if e.message ≠ "" then e.message
  else if e.dataDetail ≠ "" then e.dataDetail
  else ""

/-- Is the code a number in the half-open interval [lo, hi)? The TS
    comparisons (error.code >= 500 and error.code < 600) are false for string
    codes (NaN comparisons). -/
def codeInRange (c : ErrCode) (lo hi : Int) : Bool :=
  match c with
  | .num n => lo ≤ n && n < hi
  | _ => false

/-- mapTwitterError from src/unnamed/part_002 (identical in
    src/apps/worker/src/twitter.ts): maps the dynamic twitter client error to
    a TwitterError triple, first matching guard wins. -/
def mapTwitterError (e : ApiError) : TwitterErrorT :=
  if e.code = .num 429 || e.rateLimit then
    ⟨"RATE_LIMITED", "Twitter rate limit exceeded. Please try again later.", true⟩
  else if e.code = .num 401 then
    ⟨"AUTH_INVALID", "Twitter authentication is invalid. User needs to reconnect.", false⟩
  else if e.code = .num 403 then
    let message := effMessage e
    if strContains message "suspended" then
      ⟨"ACCOUNT_SUSPENDED", "Twitter account is suspended.", false⟩
    else if strContains message "duplicate" then
      ⟨"DUPLICATE_TWEET", "This tweet appears to be a duplicate.", false⟩
    else
      ⟨"FORBIDDEN", "Tweet rejected by Twitter: " ++ message, false⟩
  else if codeInRange e.code 500 600 then
    ⟨"TWITTER_SERVER_ERROR", "Twitter is experiencing issues. Will retry.", true⟩
  else if e.code = .str "ECONNREFUSED" || e.code = .str "ETIMEDOUT"
      || e.code = .str "ENOTFOUND" then
    ⟨"NETWORK_ERROR", "Network error connecting to Twitter.", true⟩
  else
    ⟨"UNKNOWN_TWITTER_ERROR",
      (if e.message ≠ "" then e.message else "An unknown Twitter error occurred."),
      false⟩

/-- validateTweetContent from src/unnamed/part_002: valid flag plus optional
    error string. -/
structure ValidationResult where
  valid : Bool
  error : Option String
deriving Repr, DecidableEq

/-- validateTweetContent: rejects content over 280 characters or effectively
    empty (after trim). -/
def validateTweetContent (content : String) : ValidationResult :=
  if content.length > 280 then
    ⟨false, some "Tweet exceeds 280 character limit"⟩
  else if content.trim.length = 0 then
    ⟨false, some "Tweet content is empty"⟩
  else
    ⟨true, none⟩

/-- Outcome of the fetch(url) download of one media item: a response with
    ok=true (carrying body size and content-type header), a response with
    ok=false (an HTTP error status), or a rejected promise. -/
inductive FetchOutcome
  | ok (bytes : Nat) (contentType : Option String)
  | notOk (status : Nat)
  | throwsErr (msg : String)
deriving Repr, DecidableEq

/-- Outcome of client.v1.uploadMedia for one media item. -/
inductive UploadOutcome
  | ok (mediaId : String)
  | throwsErr (msg : String)
deriving Repr, DecidableEq

/-- Outcome of client.v2.tweet. -/
inductive TweetOutcome
  | ok (tweetId : String)
  | err (e : ApiError)
deriving Repr, DecidableEq

/-- Environment resolving the external network effects of the gateway:
    what each fetch, media upload and tweet call would return. -/
structure GatewayEnv where
  fetch : String → FetchOutcome
  upload : String → UploadOutcome
  tweet : String → List String → TweetOutcome

/-- One outbound network call performed by the gateway, in order. -/
inductive NetCall
  | fetch (url : String)
  | upload (url : String)
  | tweet (content : String) (mediaIds : List String)
deriving Repr, DecidableEq

/-- Loop body of uploadMedia over the (already capped) url list: returns the
    collected media ids and the trace of network calls. A failed download
    (response not ok, or fetch throwing) or a failed upload skips just that
    url — the per-url try/catch never aborts the loop. -/
def uploadMediaGo (env : GatewayEnv) : List String → List String × List NetCall
  | [] => ([], [])
  | url :: rest =>
    let tail := uploadMediaGo env rest
    match env.fetch url with
    | .throwsErr _ => (tail.1, .fetch url :: tail.2)
    | .notOk _ => (tail.1, .fetch url :: tail.2)
    | .ok _ _ =>
      match env.upload url with
      | .throwsErr _ => (tail.1, .fetch url :: .upload url :: tail.2)
      | .ok mediaId => (mediaId :: tail.1, .fetch url :: .upload url :: tail.2)

/-- uploadMedia from src/unnamed/part_002: caps the url list at 4 (Twitter
    allows max 4 images per tweet; extra urls are silently dropped), then runs
    the per-url download-and-upload loop. -/
def uploadMedia (env : GatewayEnv) (mediaUrls : List String) :
    List String × List NetCall :=
  uploadMediaGo env (mediaUrls.take 4)

/-- App-level credentials read from the environment; the TS check treats a
    missing or empty variable as falsy. -/
structure TwitterConfig where
  appKey : Option String
  appSecret : Option String
deriving Repr, DecidableEq

/-- Is this optional environment variable falsy (absent or empty)? -/
def envFalsy (v : Option String) : Bool :=
  v.getD "" = ""

/-- Parameters of postTweet. mediaUrls is optional. -/
structure PostTweetParams where
  accessToken : String
  accessSecret : String
  content : String
  mediaUrls : Option (List String)
deriving Repr, DecidableEq

/-- Success result of postTweet. -/
structure PostTweetResult where
  tweetId : String
  tweetUrl : String
deriving Repr, DecidableEq

/-- postTweet from src/unnamed/part_002: throws CONFIG_MISSING before any
    network call when app credentials are absent; otherwise uploads media (if
    any urls were given), posts the tweet with the successfully uploaded media
    ids, and maps a platform error through mapTwitterError. Returns the
    classified outcome together with the ordered trace of network calls. -/
def postTweet (env : GatewayEnv) (cfg : TwitterConfig) (params : PostTweetParams) :
    Except TwitterErrorT PostTweetResult × List NetCall :=
  if envFalsy cfg.appKey || envFalsy cfg.appSecret then
    (.error ⟨"CONFIG_MISSING",
      "TWITTER_API_KEY and TWITTER_API_SECRET must be set in environment variables.",
      false⟩, [])
  else
    let media :=
      match params.mediaUrls with
      | some urls => if urls.length > 0 then uploadMedia env urls else ([], [])
      | none => ([], [])
    let calls := media.2 ++ [.tweet params.content media.1]
    match env.tweet params.content media.1 with
    | .ok tweetId =>
      (.ok ⟨tweetId, "https://twitter.com/i/status/" ++ tweetId⟩, calls)
    | .err e => (.error (mapTwitterError e), calls)

/-- TwitterPostJobData snapshot carried by a queue job (src/unnamed/part_004). -/
structure TwitterPostJobData where
  scheduledPostId : String
  userId : String
  contentId : String
  platform : String
  content : String
  mediaUrls : Option (List String)
  priority : Int
deriving Repr, DecidableEq

/-- The slice of a BullMQ job the processor reads: id, data, attemptsMade and
    opts.attempts (the configured attempt ceiling, possibly absent). -/
structure Job where
  id : String
  data : TwitterPostJobData
  attemptsMade : Nat
  optsAttempts : Option Nat
deriving Repr, DecidableEq

/-- The TS expression (job.opts.attempts or 3): JS number truthiness makes a
    configured 0 fall back to the default 3 as well. -/
def attemptCeiling (optsAttempts : Option Nat) : Nat :=
  match optsAttempts with
  | some n => if n = 0 then 3 else n
  | none => 3

/-- JobResult returned by the processor (src/unnamed/part_004). -/
structure JobResult where
  success : Bool
  postId : Option String
  postUrl : Option String
  error : Option TwitterErrorT
deriving Repr, DecidableEq

/-- An error flowing through the catch block of processTwitterPost: a typed
    TwitterError, a generic JS Error (message only), or a non-Error value
    (stringified). -/
inductive WorkerErr
  | twitterError (code message : String) (retryable : Bool)
  | otherError (message : String)
  | nonError (repr : String)
deriving Repr, DecidableEq

/-- categorizeError from src/src/worker/processor.ts: a TwitterError keeps its
    own triple; a generic Error whose message mentions a Node network errno is
    NETWORK_ERROR retryable; everything else is UNKNOWN_ERROR non-retryable. -/
def categorizeError (e : WorkerErr) : TwitterErrorT :=
  match e with
  | .twitterError code message retryable => ⟨code, message, retryable⟩
  | .otherError message =>
    if strContains message "ECONNREFUSED" || strContains message "ETIMEDOUT"
        || strContains message "ENOTFOUND" then
      ⟨"NETWORK_ERROR", message, true⟩
    else
      ⟨"UNKNOWN_ERROR", message, false⟩
  | .nonError s => ⟨"UNKNOWN_ERROR", s, false⟩

/-- Environment of one processor invocation: the current instant, the result
    of the SocialConnection lookup for (userId, twitter, active), the app
    config and the gateway network effects. -/
structure WorkerEnv where
  now : Int
  findConnection : Option SocialConnection
  cfg : TwitterConfig
  gateway : GatewayEnv

/-- Step 1 of the processor, the mark-processing ledger update: set
    status=PROCESSING, startedAt=now, lastAttemptAt=now and atomically
    increment attempts. Only the listed fields change. -/
def markProcessing (now : Int) (row : ScheduledPost) : ScheduledPost :=
  { row with
    status := .PROCESSING
    startedAt := some now
    attempts := row.attempts + 1
    lastAttemptAt := some now }

/-- Success-path ledger update of the processor: status=POSTED, platform post
    id and url, completedAt=now, error fields cleared. -/
def successUpdate (now : Int) (res : PostTweetResult) (row : ScheduledPost) :
    ScheduledPost :=
  { row with
    status := .POSTED
    platformPostId := some res.tweetId
    platformUrl := some res.tweetUrl
    completedAt := some now
    errorMessage := Option.none
    errorCode := Option.none }

/-- Failure-path ledger update of the processor: status is QUEUED when the
    error is retryable and attemptsMade is under the ceiling, otherwise
    FAILED; errorMessage and errorCode record the classified error. No other
    field is listed in the update. -/
def failureUpdate (info : TwitterErrorT) (retryNext : Bool) (row : ScheduledPost) :
    ScheduledPost :=
  { row with
    status := if retryNext then .QUEUED else .FAILED
    errorMessage := some info.message
    errorCode := some info.code }

/-- Steps 2 to 5 of the try block after mark-processing: resolve credentials
    (three guard checks, each throwing a non-retryable TwitterError) and call
    the gateway; a gateway TwitterError propagates as a thrown error. -/
def runDelivery (env : WorkerEnv) (job : Job) :
    Except WorkerErr (PostTweetResult × List NetCall) :=
  match env.findConnection with
  | Option.none =>
    .error (.twitterError "NO_CONNECTION"
      "No active Twitter connection found. User needs to reconnect Twitter." false)
  | some conn =>
    if conn.refreshToken.getD "" = "" then
      .error (.twitterError "MISSING_ACCESS_SECRET"
        "OAuth 1.0a Access Token Secret is missing. User needs to reconnect Twitter." false)
    else
      match conn.expiresAt with
      | some t =>
        if t < env.now then
          .error (.twitterError "TOKEN_EXPIRED"
            "Twitter access token has expired. User needs to reconnect." false)
        else deliverViaGateway env conn job
      | Option.none => deliverViaGateway env conn job
where
  /-- The postTweet call with the resolved credentials. -/
  deliverViaGateway (env : WorkerEnv) (conn : SocialConnection) (job : Job) :
      Except WorkerErr (PostTweetResult × List NetCall) :=
    match postTweet env.gateway env.cfg
      ⟨conn.accessToken, conn.refreshToken.getD "", job.data.content, job.data.mediaUrls⟩ with
    | (.ok res, calls) => .ok (res, calls)
    | (.error te, _) => .error (.twitterError te.code te.message te.retryable)

/-- How one processor invocation ends: a returned JobResult, or a re-raised
    error (which triggers BullMQ retry handling). -/
inductive ProcOutcome
  | returns (r : JobResult)
  | raises (e : WorkerErr)
deriving Repr, DecidableEq

/-- Full record of one processor invocation: the successive versions of the
    ledger row after each scheduledPost update, in order, and the outcome.
    The success-path bookkeeping on other tables (generatedContent update,
    rateLimitState upsert) touches no scheduledPost row and is out of frame. -/
structure ProcRun where
  rowTrace : List ScheduledPost
  finalRow : ScheduledPost
  outcome : ProcOutcome
deriving Repr, DecidableEq

/-- processTwitterPost from src/src/worker/processor.ts, as a function of the
    invocation environment, the job and the current ledger row. -/
def processTwitterPost (env : WorkerEnv) (job : Job) (row : ScheduledPost) :
    ProcRun :=
  let row1 := markProcessing env.now row
  match runDelivery env job with
  | .ok (res, _) =>
    let row2 := successUpdate env.now res row1
    { rowTrace := [row1, row2], finalRow := row2,
      outcome := .returns ⟨true, some res.tweetId, some res.tweetUrl, Option.none⟩ }
  | .error e =>
    let info := categorizeError e
    let retryNext := info.retryable && job.attemptsMade < attemptCeiling job.optsAttempts
    let row2 := failureUpdate info retryNext row1
    { rowTrace := [row1, row2], finalRow := row2,
      outcome :=
        if info.retryable then .raises e
        else .returns ⟨false, Option.none, Option.none, some info⟩ }

/-- Exponential-backoff retry policy shared by all jobs
    (DEFAULT_JOB_OPTIONS in src/unnamed/part_004): 3 attempts, base delay
    60000 ms doubling. -/
structure JobRetryOptions where
  attempts : Nat
  backoffType : String
  backoffDelay : Nat
deriving Repr, DecidableEq

/-- DEFAULT_JOB_OPTIONS (retry-relevant fields). -/
def DEFAULT_JOB_OPTIONS : JobRetryOptions :=
  { attempts := 3, backoffType := "exponential", backoffDelay := 60000 }

/-- The job submission queueUpcomingPosts builds for one row: job name, data
    snapshot, the spread default options, and the per-row delay, jobId and
    queue priority. -/
structure JobSubmission where
  name : String
  data : TwitterPostJobData
  opts : JobRetryOptions
  delay : Int
  jobId : String
  priority : Int
deriving Repr, DecidableEq

/-- Result of queue.add for a submission: the created job id, or a thrown
    error with a message (a duplicate job id is reported through a message
    containing "already exists"). -/
inductive AddOutcome
  | ok (jobId : String)
  | err (message : String)
deriving Repr, DecidableEq

/-- Environment of one promotion tick: the current instant, the configured
    look-ahead, and what queue.add returns for each submission. -/
structure SchedEnv where
  now : Int
  lookAheadMinutes : Int
  addResult : JobSubmission → AddOutcome

/-- The findMany filter of queueUpcomingPosts: status PENDING, platform
    twitter, scheduledFor at or before now plus the look-ahead window. -/
def eligibleForQueueing (env : SchedEnv) (post : ScheduledPost) : Prop :=
  post.status = .PENDING ∧ post.platform = "twitter" ∧
    post.scheduledFor ≤ env.now + env.lookAheadMinutes * 60000

/-- The submission queueUpcomingPosts builds for one row: name post-tweet,
    the data snapshot, the spread DEFAULT_JOB_OPTIONS, delay
    max(0, scheduledFor - now), deterministic job id tweet-(post id), and
    queue priority 10 - priority (BullMQ serves lower numbers first). -/
def buildSubmission (env : SchedEnv) (post : ScheduledPost) : JobSubmission :=
  { name := "post-tweet"
    data := { scheduledPostId := post.id, userId := post.userId,
              contentId := post.contentId, platform := post.platform,
              content := post.content, mediaUrls := Option.none,
              priority := post.priority }
    opts := DEFAULT_JOB_OPTIONS
    delay := max 0 (post.scheduledFor - env.now)
    jobId := "tweet-" ++ post.id
    priority := 10 - post.priority }

/-- Loop body of queueUpcomingPosts for one row: submit the job; on success
    update the row to QUEUED with the returned job id and queuedAt=now; on a
    thrown error the catch only logs (distinguishing the duplicate-id case by
    message) and leaves the row untouched. -/
def queuePostRow (env : SchedEnv) (post : ScheduledPost) : ScheduledPost :=
  let sub := buildSubmission env post
  match env.addResult sub with
  | .ok jid =>
    { post with status := .QUEUED, jobId := some jid, queuedAt := some env.now }
  | .err message =>
    -- both catch branches only log: duplicate-id skip vs error-for-next-tick
    if strContains message "already exists" then post else post

/-- What the queue reports about a job id during recovery: a state string, a
    missing job (getJob returned null), or the lookup itself threw. -/
inductive JobStateLookup
  | state (s : String)
  | jobMissing
  | lookupError
deriving Repr, DecidableEq

/-- Environment of one recovery tick: the current instant, the configured
    stuck threshold and the queue job-state oracle. -/
structure RecoveryEnv where
  now : Int
  stuckThresholdMinutes : Int
  getJobState : String → JobStateLookup

/-- The findMany filter of recoverStuckJobs: status PROCESSING with startedAt
    strictly before now minus the threshold (a null startedAt never matches
    the lt filter). -/
def isStuck (env : RecoveryEnv) (post : ScheduledPost) : Prop :=
  post.status = .PROCESSING ∧
    ∃ t, post.startedAt = some t ∧ t < env.now - env.stuckThresholdMinutes * 60000

/-- The jobActive check of recoverStuckJobs: false when the row has no jobId;
    otherwise true exactly when the queue lookup succeeds and reports the
    state string active — a missing job, any other state, or a lookup error
    all leave it false (the catch swallows the error). -/
def jobIsActive (env : RecoveryEnv) (jobId : Option String) : Bool :=
  match jobId with
  | Option.none => false
  | some id =>
    match env.getJobState id with
    | .state s => s == "active"
    | .jobMissing => false
    | .lookupError => false

/-- Loop body of recoverStuckJobs for one selected row: skip it when its
    queue job is active, otherwise reset it to PENDING, clearing jobId,
    queuedAt and startedAt and recording the timeout diagnostic. -/
def recoverRow (env : RecoveryEnv) (post : ScheduledPost) : ScheduledPost :=
  if jobIsActive env post.jobId then post
  else
    { post with
      status := .PENDING
      jobId := Option.none
      queuedAt := Option.none
      startedAt := Option.none
      errorMessage := some ("Job timed out after " ++ toString env.stuckThresholdMinutes
        ++ " minutes and was reset") }

/-- Spec-side characterization of the fate of a single media url: its id when
    both download and upload succeed, nothing otherwise. Used to compare
    uploadMedia against the partial-failure contract. -/
def mediaItemResult (env : GatewayEnv) (url : String) : Option String :=
  match env.fetch url with
  | .ok _ _ =>
    match env.upload url with
    | .ok mediaId => some mediaId
    | .throwsErr _ => Option.none
  | _ => Option.none

/-! Concrete sample values used by witnesses and counterexamples. -/

/-- App config with both credentials present. -/
def cfgOk : TwitterConfig := ⟨some "k", some "s"⟩

/-- Gateway whose tweet call succeeds with id 1 (media calls all fail). -/
def gwTweetOk : GatewayEnv :=
  { fetch := fun _ => .throwsErr "down"
    upload := fun _ => .throwsErr "down"
    tweet := fun _ _ => .ok "1" }

/-- Gateway whose tweet call fails with HTTP 429 (a rate limit). -/
def gw429 : GatewayEnv :=
  { fetch := fun _ => .throwsErr "down"
    upload := fun _ => .throwsErr "down"
    tweet := fun _ _ => .err ⟨.num 429, false, "", ""⟩ }

/-- Gateway for the media scenario: url A fails to download (404), url B
    downloads and uploads as media id m2, the tweet call succeeds with id 9. -/
def gwMediaAB : GatewayEnv :=
  { fetch := fun u => if u = "A" then .notOk 404 else .ok 10 (some "image/png")
    upload := fun _ => .ok "m2"
    tweet := fun _ _ => .ok "9" }

/-- A fresh PENDING ledger row. -/
def basePost : ScheduledPost :=
  { id := "post-1", userId := "user-1", contentId := "content-1"
    platform := "twitter", content := "Hello World!"
    scheduledFor := 1120000, priority := 0, status := .PENDING
    jobId := Option.none, queuedAt := Option.none, startedAt := Option.none
    completedAt := Option.none, attempts := 0, lastAttemptAt := Option.none
    errorCode := Option.none, errorMessage := Option.none
    platformPostId := Option.none, platformUrl := Option.none }

/-- A row sitting in PROCESSING since instant 100000 with a live job id. -/
def stuckPost : ScheduledPost :=
  { basePost with
    status := .PROCESSING
    startedAt := some 100000
    jobId := some "tweet-post-1"
    attempts := 1 }

/-- Promotion-tick environment: now = 1000000, look-ahead 5 minutes, every
    submission accepted under its own deterministic id. -/
def schedEnvOk : SchedEnv :=
  { now := 1000000, lookAheadMinutes := 5
    addResult := fun sub => .ok sub.jobId }

/-- Promotion-tick environment whose queue rejects every submission with a
    non-duplicate error. -/
def schedEnvErr : SchedEnv :=
  { now := 1000000, lookAheadMinutes := 5
    addResult := fun _ => .err "connection lost" }

/-- Recovery-tick environment matching spec scenario 4: now = 940000, which
    is 14 minutes after the stuck row started at 100000; threshold 10
    minutes; the queue reports every job missing. -/
def recEnvMissing : RecoveryEnv :=
  { now := 940000, stuckThresholdMinutes := 10
    getJobState := fun _ => .jobMissing }

/-- A base queue job for the worker: attempt 1 of 3. -/
def jobAttempt0 : Job :=
  { id := "tweet-post-1"
    data := { scheduledPostId := "post-1", userId := "user-1"
              contentId := "content-1", platform := "twitter"
              content := "Hello World!", mediaUrls := Option.none, priority := 0 }
    attemptsMade := 0, optsAttempts := some 3 }

/-- The same job on its final allowed attempt: attemptsMade has reached the
    configured ceiling of 3. -/
def jobAttempt3 : Job := { jobAttempt0 with attemptsMade := 3 }

/-- Worker environment with a healthy connection and a rate-limited gateway. -/
def envRateLimited : WorkerEnv :=
  { now := 2000000, findConnection := some ⟨"tok", some "sec", Option.none⟩
    cfg := cfgOk, gateway := gw429 }

/-- Worker environment where the user has no active SocialConnection. -/
def envNoConnection : WorkerEnv :=
  { now := 2000000, findConnection := Option.none
    cfg := cfgOk, gateway := gwTweetOk }

/-- Content of exactly 281 identical characters (one over the limit). -/
def content281 : String := String.mk (List.replicate 281 'a')

/-- C3: for every PENDING twitter row inside the look-ahead window that the
    promotion tick successfully enqueues, the submission carries delay
    max(0, scheduledFor - now), deterministic job id tweet-(post id) and queue
    priority 10 - p, and the row is updated to QUEUED with jobId and queuedAt
    set; in particular priority 0 with scheduledFor = now + 2 minutes gives
    delay 120000 ms and queue priority 10. -/
theorem scheduler_promotion_contract (env : SchedEnv) (post : ScheduledPost)
    (jid : String) (_helig : eligibleForQueueing env post)
    (hok : env.addResult (buildSubmission env post) = .ok jid) :
    (buildSubmission env post).delay = max 0 (post.scheduledFor - env.now) ∧
    (buildSubmission env post).jobId = "tweet-" ++ post.id ∧
    (buildSubmission env post).priority = 10 - post.priority ∧
    (queuePostRow env post).status = .QUEUED ∧
    (queuePostRow env post).jobId = some jid ∧
    (queuePostRow env post).queuedAt = some env.now ∧
    (post.priority = 0 → post.scheduledFor = env.now + 120000 →
      (buildSubmission env post).delay = 120000 ∧
      (buildSubmission env post).priority = 10) := by
  refine ⟨rfl, rfl, rfl, ?_, ?_, ?_, ?_⟩
  · simp [queuePostRow, hok]
  · simp [queuePostRow, hok]
  · simp [queuePostRow, hok]
  · intro hp hs
    constructor
    · simp only [buildSubmission, hs]
      omega
    · simp [buildSubmission, hp]

/-- Witness for C3: the sample PENDING row scheduled 2 minutes ahead is
    eligible, gets queued, and its submission has delay 120000 and queue
    priority 10. -/
theorem scheduler_promotion_contract_witness :
    eligibleForQueueing schedEnvOk basePost ∧
    schedEnvOk.addResult (buildSubmission schedEnvOk basePost) = .ok "tweet-post-1" ∧
    (queuePostRow schedEnvOk basePost).status = .QUEUED ∧
    (buildSubmission schedEnvOk basePost).delay = 120000 ∧
    (buildSubmission schedEnvOk basePost).priority = 10 := by
  have h := scheduler_promotion_contract schedEnvOk basePost "tweet-post-1"
    ⟨rfl, rfl, by decide⟩ rfl
  exact ⟨⟨rfl, rfl, by decide⟩, rfl, h.2.2.2.1,
    (h.2.2.2.2.2.2 rfl rfl).1, (h.2.2.2.2.2.2 rfl rfl).2⟩

/-- C9: when the promotion tick submission fails for a row, the row is left
    unmodified (in particular it stays PENDING), whether the queue error is
    the duplicate-id case or any other; only a successful submission changes
    the row, and then exactly to QUEUED with jobId and queuedAt set. -/
theorem scheduler_submission_failure_frame (env : SchedEnv) (post : ScheduledPost)
    (helig : eligibleForQueueing env post) :
    (∀ msg, env.addResult (buildSubmission env post) = .err msg →
      queuePostRow env post = post) ∧
    (∀ msg, env.addResult (buildSubmission env post) = .err msg →
      (queuePostRow env post).status = .PENDING) ∧
    (queuePostRow env post ≠ post →
      ∃ jid, env.addResult (buildSubmission env post) = .ok jid ∧
        queuePostRow env post =
          { post with status := .QUEUED, jobId := some jid,
                      queuedAt := some env.now }) := by
  refine ⟨?_, ?_, ?_⟩
  · intro msg h
    simp [queuePostRow, h]
  · intro msg h
    have : queuePostRow env post = post := by simp [queuePostRow, h]
    rw [this, helig.1]
  · intro hne
    cases h : env.addResult (buildSubmission env post) with
    | ok jid => exact ⟨jid, rfl, by simp [queuePostRow, h]⟩
    | err msg => exact absurd (by simp [queuePostRow, h]) hne

/-- Witness for C9: with a queue rejecting every submission, the sample
    eligible row is returned unchanged and still PENDING. -/
theorem scheduler_submission_failure_frame_witness :
    eligibleForQueueing schedEnvErr basePost ∧
    queuePostRow schedEnvErr basePost = basePost ∧
    (queuePostRow schedEnvErr basePost).status = .PENDING := by
  have h := scheduler_submission_failure_frame schedEnvErr basePost
    ⟨rfl, rfl, by decide⟩
  exact ⟨⟨rfl, rfl, by decide⟩, h.1 "connection lost" rfl, h.2.1 "connection lost" rfl⟩

/-- C4: a PROCESSING row older than the stuck threshold is reset to PENDING
    with jobId, queuedAt and startedAt cleared and a timeout diagnostic
    recorded whenever its queue job is not active (job id absent, job
    missing, job in any non-active state, or the lookup erroring), and is
    left unchanged when the queue reports the job active. -/
theorem recovery_reset_contract (env : RecoveryEnv) (post : ScheduledPost)
    (_hstuck : isStuck env post) :
    (jobIsActive env post.jobId = true → recoverRow env post = post) ∧
    (jobIsActive env post.jobId = false →
      (recoverRow env post).status = .PENDING ∧
      (recoverRow env post).jobId = Option.none ∧
      (recoverRow env post).queuedAt = Option.none ∧
      (recoverRow env post).startedAt = Option.none ∧
      (recoverRow env post).errorMessage =
        some ("Job timed out after " ++ toString env.stuckThresholdMinutes
          ++ " minutes and was reset")) ∧
    (post.jobId = Option.none → jobIsActive env post.jobId = false) ∧
    (∀ id, post.jobId = some id → env.getJobState id = .jobMissing →
      jobIsActive env post.jobId = false) ∧
    (∀ id, post.jobId = some id → env.getJobState id = .lookupError →
      jobIsActive env post.jobId = false) ∧
    (∀ id s, post.jobId = some id → env.getJobState id = .state s →
      (jobIsActive env post.jobId = true ↔ s = "active")) := by
  refine ⟨?_, ?_, ?_, ?_, ?_, ?_⟩
  · intro h
    simp [recoverRow, h]
  · intro h
    simp [recoverRow, h]
  · intro h
    simp [jobIsActive, h]
  · intro id h hj
    simp [jobIsActive, h, hj]
  · intro id h hj
    simp [jobIsActive, h, hj]
  · intro id s h hj
    simp [jobIsActive, h, hj]

/-- Witness for C4, spec scenario 4: the sample row PROCESSING since 14
    minutes ago with threshold 10 and the job missing from the queue is reset
    to PENDING with jobId cleared. -/
theorem recovery_reset_contract_witness :
    isStuck recEnvMissing stuckPost ∧
    jobIsActive recEnvMissing stuckPost.jobId = false ∧
    (recoverRow recEnvMissing stuckPost).status = .PENDING ∧
    (recoverRow recEnvMissing stuckPost).jobId = Option.none := by
  have h := recovery_reset_contract recEnvMissing stuckPost
    ⟨rfl, 100000, rfl, by decide⟩
  have hact : jobIsActive recEnvMissing stuckPost.jobId = false :=
    h.2.2.2.1 "tweet-post-1" rfl rfl
  exact ⟨⟨rfl, 100000, rfl, by decide⟩, hact, (h.2.1 hact).1, (h.2.1 hact).2.1⟩

/-- Helper: the media ids collected by the upload loop are exactly the
    per-url successes, in order. -/
theorem uploadMediaGo_ids (env : GatewayEnv) :
    ∀ l : List String, (uploadMediaGo env l).1 = l.filterMap (mediaItemResult env)
  | [] => rfl
  | url :: rest => by
    have ih := uploadMediaGo_ids env rest
    cases hf : env.fetch url with
    | ok b ct =>
      cases hu : env.upload url with
      | ok mid => simp [uploadMediaGo, mediaItemResult, hf, hu, ih]
      | throwsErr m => simp [uploadMediaGo, mediaItemResult, hf, hu, ih]
    | notOk s => simp [uploadMediaGo, mediaItemResult, hf, ih]
    | throwsErr m => simp [uploadMediaGo, mediaItemResult, hf, ih]

/-- C6: the gateway attempts at most the first 4 media urls (extra urls are
    silently dropped), a single failed download or upload skips only that
    item, and the post proceeds with exactly the media ids that uploaded
    successfully; concretely, for urls A (download fails) and B (succeeds)
    the tweet is posted with the single attachment uploaded for B. -/
theorem gateway_media_partial_failure :
    (∀ (env : GatewayEnv) (urls : List String),
      (uploadMedia env urls).1 = (urls.take 4).filterMap (mediaItemResult env)) ∧
    (∀ (env : GatewayEnv) (urls : List String),
      uploadMedia env urls = uploadMedia env (urls.take 4)) ∧
    (postTweet gwMediaAB cfgOk ⟨"tok", "sec", "hi", some ["A", "B"]⟩).1 =
      .ok ⟨"9", "https://twitter.com/i/status/9"⟩ ∧
    (postTweet gwMediaAB cfgOk ⟨"tok", "sec", "hi", some ["A", "B"]⟩).2 =
      [.fetch "A", .fetch "B", .upload "B", .tweet "hi" ["m2"]] := by
  refine ⟨?_, ?_, rfl, rfl⟩
  · intro env urls
    exact uploadMediaGo_ids env (urls.take 4)
  · intro env urls
    simp [uploadMedia, List.take_take]

/-- C7: mapTwitterError realizes the failure taxonomy as a first-match
    decision list — 429 or a rate-limit signal gives RATE_LIMITED retryable;
    401 gives AUTH_INVALID; 403 splits on suspension and duplicate reasons
    into ACCOUNT_SUSPENDED, DUPLICATE_TWEET or FORBIDDEN; 5xx gives
    TWITTER_SERVER_ERROR retryable; the Node connection errnos give
    NETWORK_ERROR retryable; everything unrecognized gives the non-retryable
    UNKNOWN_TWITTER_ERROR default; and the only retryable codes it ever
    produces are RATE_LIMITED, TWITTER_SERVER_ERROR and NETWORK_ERROR. -/
theorem gateway_error_mapping (e : ApiError) :
    ((e.code = .num 429 ∨ e.rateLimit = true) →
      mapTwitterError e =
        ⟨"RATE_LIMITED", "Twitter rate limit exceeded. Please try again later.", true⟩) ∧
    (e.rateLimit = false → e.code = .num 401 →
      mapTwitterError e =
        ⟨"AUTH_INVALID", "Twitter authentication is invalid. User needs to reconnect.", false⟩) ∧
    (e.rateLimit = false → e.code = .num 403 →
      strContains (effMessage e) "suspended" = true →
      mapTwitterError e = ⟨"ACCOUNT_SUSPENDED", "Twitter account is suspended.", false⟩) ∧
    (e.rateLimit = false → e.code = .num 403 →
      strContains (effMessage e) "suspended" = false →
      strContains (effMessage e) "duplicate" = true →
      mapTwitterError e = ⟨"DUPLICATE_TWEET", "This tweet appears to be a duplicate.", false⟩) ∧
    (e.rateLimit = false → e.code = .num 403 →
      strContains (effMessage e) "suspended" = false →
      strContains (effMessage e) "duplicate" = false →
      mapTwitterError e =
        ⟨"FORBIDDEN", "Tweet rejected by Twitter: " ++ effMessage e, false⟩) ∧
    (e.rateLimit = false → codeInRange e.code 500 600 = true →
      mapTwitterError e =
        ⟨"TWITTER_SERVER_ERROR", "Twitter is experiencing issues. Will retry.", true⟩) ∧
    (e.rateLimit = false →
      (e.code = .str "ECONNREFUSED" ∨ e.code = .str "ETIMEDOUT"
        ∨ e.code = .str "ENOTFOUND") →
      mapTwitterError e = ⟨"NETWORK_ERROR", "Network error connecting to Twitter.", true⟩) ∧
    (e.rateLimit = false → e.code ≠ .num 429 → e.code ≠ .num 401 → e.code ≠ .num 403 →
      codeInRange e.code 500 600 = false →
      e.code ≠ .str "ECONNREFUSED" → e.code ≠ .str "ETIMEDOUT" →
      e.code ≠ .str "ENOTFOUND" →
      (mapTwitterError e).code = "UNKNOWN_TWITTER_ERROR" ∧
      (mapTwitterError e).retryable = false) ∧
    ((mapTwitterError e).retryable = true ↔
      (mapTwitterError e).code = "RATE_LIMITED" ∨
      (mapTwitterError e).code = "TWITTER_SERVER_ERROR" ∨
      (mapTwitterError e).code = "NETWORK_ERROR") := by
  refine ⟨?_, ?_, ?_, ?_, ?_, ?_, ?_, ?_, ?_⟩
  · rintro (h | h) <;> simp [mapTwitterError, h]
  · intro hrl h
    simp [mapTwitterError, h, hrl]
  · intro hrl h hs
    simp [mapTwitterError, h, hrl, hs]
  · intro hrl h hs hd
    simp [mapTwitterError, h, hrl, hs, hd]
  · intro hrl h hs hd
    simp [mapTwitterError, h, hrl, hs, hd]
  · intro hrl hcr
    cases hc : e.code with
    | num n =>
      have h5 : 500 ≤ n ∧ n < 600 := by
        have := hcr
        rw [hc] at this
        simpa [codeInRange] using this
      have h429 : ¬(n = 429) := by omega
      have h401 : ¬(n = 401) := by omega
      have h403 : ¬(n = 403) := by omega
      simp [mapTwitterError, hc, hrl, h429, h401, h403, codeInRange, h5.1, h5.2]
    | str s =>
      rw [hc] at hcr
      simp [codeInRange] at hcr
    | none =>
      rw [hc] at hcr
      simp [codeInRange] at hcr
  · rintro hrl (h | h | h) <;> simp [mapTwitterError, h, hrl, codeInRange]
  · intro hrl h429 h401 h403 hcr hec het hen
    simp [mapTwitterError, hrl, h429, h401, h403, hcr, hec, het, hen]
  · simp only [mapTwitterError]
    split_ifs <;> simp

/-- Witness for C7: an HTTP 429 maps to the retryable RATE_LIMITED triple. -/
theorem gateway_error_mapping_witness :
    mapTwitterError ⟨.num 429, false, "", ""⟩ =
      ⟨"RATE_LIMITED", "Twitter rate limit exceeded. Please try again later.", true⟩ :=
  (gateway_error_mapping ⟨.num 429, false, "", ""⟩).1 (Or.inl rfl)

set_option maxRecDepth 8000 in
/-- C2: the code evidence that over-long content is NOT rejected by the
    gateway before the network call: validateTweetContent classifies a
    281-character text as invalid, yet postTweet never consults it — on that
    same text it performs the platform post call and succeeds. -/
theorem gateway_overlong_content_not_validated :
    (validateTweetContent content281).valid = false ∧
    (validateTweetContent content281).error = some "Tweet exceeds 280 character limit" ∧
    (postTweet gwTweetOk cfgOk ⟨"tok", "sec", content281, Option.none⟩).2 =
      [.tweet content281 []] ∧
    (postTweet gwTweetOk cfgOk ⟨"tok", "sec", content281, Option.none⟩).1 =
      .ok ⟨"1", "https://twitter.com/i/status/1"⟩ := by
  refine ⟨?_, ?_, rfl, rfl⟩
  · decide
  · decide

/-- Counterexample to C1 as stated: on a retryable failure (HTTP 429) with
    attemptsMade already at the configured ceiling of 3, the ledger row is
    set to FAILED (terminal) and yet the error IS re-raised — the code
    re-raises on every retryable classification, not only under the ceiling. -/
theorem worker_terminal_retryable_still_reraises :
    (categorizeError (.twitterError "RATE_LIMITED"
      "Twitter rate limit exceeded. Please try again later." true)).retryable = true ∧
    jobAttempt3.attemptsMade = attemptCeiling jobAttempt3.optsAttempts ∧
    (processTwitterPost envRateLimited jobAttempt3 basePost).finalRow.status = .FAILED ∧
    (processTwitterPost envRateLimited jobAttempt3 basePost).finalRow.errorCode =
      some "RATE_LIMITED" ∧
    (processTwitterPost envRateLimited jobAttempt3 basePost).outcome =
      .raises (.twitterError "RATE_LIMITED"
        "Twitter rate limit exceeded. Please try again later." true) :=
  ⟨rfl, rfl, rfl, rfl, rfl⟩

/-- C1 (amended): in the failure branch the ledger status is QUEUED exactly
    when the classified error is retryable and attemptsMade is below the
    ceiling, and FAILED otherwise, always recording the error code and
    message; the error is re-raised exactly when it is retryable (regardless
    of the ceiling), and a non-retryable failure returns a failure result
    without re-raising. -/
theorem worker_failure_branch (env : WorkerEnv) (job : Job) (row : ScheduledPost)
    (e : WorkerErr) (hfail : runDelivery env job = .error e) :
    ((processTwitterPost env job row).finalRow.status = .QUEUED ↔
      ((categorizeError e).retryable = true ∧
        job.attemptsMade < attemptCeiling job.optsAttempts)) ∧
    ((processTwitterPost env job row).finalRow.status = .QUEUED ∨
      (processTwitterPost env job row).finalRow.status = .FAILED) ∧
    (processTwitterPost env job row).finalRow.errorCode =
      some (categorizeError e).code ∧
    (processTwitterPost env job row).finalRow.errorMessage =
      some (categorizeError e).message ∧
    ((processTwitterPost env job row).outcome = .raises e ↔
      (categorizeError e).retryable = true) ∧
    ((categorizeError e).retryable = false →
      (processTwitterPost env job row).outcome =
        .returns ⟨false, Option.none, Option.none, some (categorizeError e)⟩) := by
  cases hr : (categorizeError e).retryable with
  | false => simp [processTwitterPost, hfail, failureUpdate, hr]
  | true =>
    by_cases hlt : job.attemptsMade < attemptCeiling job.optsAttempts
    · simp [processTwitterPost, hfail, failureUpdate, hr, hlt]
    · simp [processTwitterPost, hfail, failureUpdate, hr, hlt]

/-- Witness for C1 (amended): a job whose user has no connection ends FAILED
    with the NO_CONNECTION code and returns a failure result instead of
    re-raising. -/
theorem worker_failure_branch_witness :
    (processTwitterPost envNoConnection jobAttempt0 basePost).outcome =
      .returns ⟨false, Option.none, Option.none,
        some ⟨"NO_CONNECTION",
          "No active Twitter connection found. User needs to reconnect Twitter.",
          false⟩⟩ ∧
    (processTwitterPost envNoConnection jobAttempt0 basePost).finalRow.errorCode =
      some "NO_CONNECTION" :=
  have h := worker_failure_branch envNoConnection jobAttempt0 basePost
    (.twitterError "NO_CONNECTION"
      "No active Twitter connection found. User needs to reconnect Twitter." false) rfl
  ⟨h.2.2.2.2.2 rfl, h.2.2.1.trans rfl⟩

/-- C5: a missing active SocialConnection, a missing secondary secret, or an
    expiry instant in the past each produce a terminal non-retryable failure:
    the row ends FAILED with code NO_CONNECTION, MISSING_ACCESS_SECRET or
    TOKEN_EXPIRED respectively, and the worker returns a failure result
    rather than re-raising. -/
theorem worker_credential_failures (env : WorkerEnv) (job : Job) (row : ScheduledPost) :
    (env.findConnection = Option.none →
      (processTwitterPost env job row).finalRow.status = .FAILED ∧
      (processTwitterPost env job row).finalRow.errorCode = some "NO_CONNECTION" ∧
      (processTwitterPost env job row).outcome =
        .returns ⟨false, Option.none, Option.none,
          some ⟨"NO_CONNECTION",
            "No active Twitter connection found. User needs to reconnect Twitter.",
            false⟩⟩) ∧
    (∀ conn, env.findConnection = some conn → conn.refreshToken.getD "" = "" →
      (processTwitterPost env job row).finalRow.status = .FAILED ∧
      (processTwitterPost env job row).finalRow.errorCode = some "MISSING_ACCESS_SECRET" ∧
      (processTwitterPost env job row).outcome =
        .returns ⟨false, Option.none, Option.none,
          some ⟨"MISSING_ACCESS_SECRET",
            "OAuth 1.0a Access Token Secret is missing. User needs to reconnect Twitter.",
            false⟩⟩) ∧
    (∀ conn t, env.findConnection = some conn → conn.refreshToken.getD "" ≠ "" →
      conn.expiresAt = some t → t < env.now →
      (processTwitterPost env job row).finalRow.status = .FAILED ∧
      (processTwitterPost env job row).finalRow.errorCode = some "TOKEN_EXPIRED" ∧
      (processTwitterPost env job row).outcome =
        .returns ⟨false, Option.none, Option.none,
          some ⟨"TOKEN_EXPIRED",
            "Twitter access token has expired. User needs to reconnect.",
            false⟩⟩) := by
  refine ⟨?_, ?_, ?_⟩
  · intro h
    simp [processTwitterPost, runDelivery, h, categorizeError, failureUpdate]
  · intro conn hconn hrt
    simp [processTwitterPost, runDelivery, hconn, hrt, categorizeError, failureUpdate]
  · intro conn t hconn hrt hexp hlt
    simp [processTwitterPost, runDelivery, hconn, hrt, hexp, hlt, categorizeError,
      failureUpdate]

/-- Witness for C5, spec scenario 2: with no SocialConnection the sample job
    ends FAILED with errorCode NO_CONNECTION and is not re-raised. -/
theorem worker_credential_failures_witness :
    envNoConnection.findConnection = Option.none ∧
    (processTwitterPost envNoConnection jobAttempt0 basePost).finalRow.status = .FAILED ∧
    (processTwitterPost envNoConnection jobAttempt0 basePost).finalRow.errorCode =
      some "NO_CONNECTION" :=
  have h := (worker_credential_failures envNoConnection jobAttempt0 basePost).1 rfl
  ⟨rfl, h.1, h.2.1⟩

/-- C8: attempts increases by exactly 1 per worker invocation, the increment
    is the first ledger write (the mark-processing update, applied whatever
    the outcome), and every ledger write of the pipeline — the success,
    failure, promotion and recovery updates — leaves attempts unchanged, so
    attempts never decreases. -/
theorem worker_attempts_monotone :
    (∀ (env : WorkerEnv) (job : Job) (row : ScheduledPost),
      (processTwitterPost env job row).finalRow.attempts = row.attempts + 1) ∧
    (∀ (env : WorkerEnv) (job : Job) (row : ScheduledPost),
      (processTwitterPost env job row).rowTrace.map (fun r => r.attempts) =
        [row.attempts + 1, row.attempts + 1]) ∧
    (∀ (env : WorkerEnv) (job : Job) (row : ScheduledPost),
      (processTwitterPost env job row).rowTrace.head? =
        some (markProcessing env.now row)) ∧
    (∀ (now : Int) (row : ScheduledPost),
      (markProcessing now row).attempts = row.attempts + 1) ∧
    (∀ (now : Int) (res : PostTweetResult) (row : ScheduledPost),
      (successUpdate now res row).attempts = row.attempts) ∧
    (∀ (info : TwitterErrorT) (b : Bool) (row : ScheduledPost),
      (failureUpdate info b row).attempts = row.attempts) ∧
    (∀ (env : SchedEnv) (row : ScheduledPost),
      (queuePostRow env row).attempts = row.attempts) ∧
    (∀ (env : RecoveryEnv) (row : ScheduledPost),
      (recoverRow env row).attempts = row.attempts) := by
  refine ⟨?_, ?_, ?_, fun _ _ => rfl, fun _ _ _ => rfl, fun _ _ _ => rfl, ?_, ?_⟩
  · intro env job row
    cases h : runDelivery env job with
    | ok v =>
      obtain ⟨res, calls⟩ := v
      simp [processTwitterPost, h, successUpdate, markProcessing]
    | error e => simp [processTwitterPost, h, failureUpdate, markProcessing]
  · intro env job row
    cases h : runDelivery env job with
    | ok v =>
      obtain ⟨res, calls⟩ := v
      simp [processTwitterPost, h, successUpdate, markProcessing]
    | error e => simp [processTwitterPost, h, failureUpdate, markProcessing]
  · intro env job row
    cases h : runDelivery env job with
    | ok v =>
      obtain ⟨res, calls⟩ := v
      simp [processTwitterPost, h]
    | error e => simp [processTwitterPost, h]
  · intro env row
    unfold queuePostRow
    cases h : env.addResult (buildSubmission env row) <;> simp [h]
  · intro env row
    unfold recoverRow
    by_cases h : jobIsActive env row.jobId <;> simp [h]

/-- C10: the failure-path ledger update writes only status, errorMessage and
    errorCode and preserves every other field; consequently a run that ends
    FAILED keeps the previously-set jobId and leaves completedAt,
    platformPostId, platformUrl and queuedAt exactly as they were before the
    invocation. -/
theorem worker_failure_update_frame :
    (∀ (info : TwitterErrorT) (b : Bool) (row : ScheduledPost),
      (failureUpdate info b row).id = row.id ∧
      (failureUpdate info b row).userId = row.userId ∧
      (failureUpdate info b row).contentId = row.contentId ∧
      (failureUpdate info b row).platform = row.platform ∧
      (failureUpdate info b row).content = row.content ∧
      (failureUpdate info b row).scheduledFor = row.scheduledFor ∧
      (failureUpdate info b row).priority = row.priority ∧
      (failureUpdate info b row).jobId = row.jobId ∧
      (failureUpdate info b row).queuedAt = row.queuedAt ∧
      (failureUpdate info b row).startedAt = row.startedAt ∧
      (failureUpdate info b row).completedAt = row.completedAt ∧
      (failureUpdate info b row).attempts = row.attempts ∧
      (failureUpdate info b row).lastAttemptAt = row.lastAttemptAt ∧
      (failureUpdate info b row).platformPostId = row.platformPostId ∧
      (failureUpdate info b row).platformUrl = row.platformUrl) ∧
    (∀ (env : WorkerEnv) (job : Job) (row : ScheduledPost),
      (processTwitterPost env job row).finalRow.status = .FAILED →
      (processTwitterPost env job row).finalRow.jobId = row.jobId ∧
      (processTwitterPost env job row).finalRow.completedAt = row.completedAt ∧
      (processTwitterPost env job row).finalRow.platformPostId = row.platformPostId ∧
      (processTwitterPost env job row).finalRow.platformUrl = row.platformUrl ∧
      (processTwitterPost env job row).finalRow.queuedAt = row.queuedAt) := by
  refine ⟨?_, ?_⟩
  · intro info b row
    refine ⟨rfl, rfl, rfl, rfl, rfl, rfl, rfl, rfl, rfl, rfl, rfl, rfl, rfl, rfl, rfl⟩
  · intro env job row hfailed
    cases h : runDelivery env job with
    | ok v =>
      obtain ⟨res, calls⟩ := v
      rw [show processTwitterPost env job row =
        { rowTrace := [markProcessing env.now row,
            successUpdate env.now res (markProcessing env.now row)],
          finalRow := successUpdate env.now res (markProcessing env.now row),
          outcome := .returns ⟨true, some res.tweetId, some res.tweetUrl, Option.none⟩ }
        from by simp [processTwitterPost, h]] at hfailed
      simp [successUpdate, markProcessing] at hfailed
    | error e =>
      simp [processTwitterPost, h, failureUpdate, markProcessing]

/-- Witness for C10: a run ending FAILED on the sample PROCESSING row keeps
    its previously-set jobId and its null completedAt. -/
theorem worker_failure_update_frame_witness :
    (processTwitterPost envNoConnection jobAttempt0 stuckPost).finalRow.status = .FAILED ∧
    (processTwitterPost envNoConnection jobAttempt0 stuckPost).finalRow.jobId =
      some "tweet-post-1" ∧
    (processTwitterPost envNoConnection jobAttempt0 stuckPost).finalRow.completedAt =
      Option.none :=
  have h := (worker_failure_update_frame).2 envNoConnection jobAttempt0 stuckPost rfl
  ⟨rfl, h.1.trans rfl, h.2.1.trans rfl⟩

end GitXFlow
